import Mathlib

/-!
Verification of the per-user WebSocket notification fan-out of the
spacepoint-inventory backend (backend/routers/websockets.py), together
with the producer-side event payload constructions
(backend/routers/reports.py, package_requests.py, receipts.py).

The registry state of ConnectionManager is its active_connections
dictionary, a Python dict from user id (int) to a list of WebSocket
objects.  We model WebSocket objects by natural numbers (equality of
Python WebSocket objects is object identity, which decidable equality
on Nat models faithfully) and the dict by a partial map
Nat -> Option (List Conn).  The event payload is opaque to the delivery
layer; whether transmitting it on a given connection raises is modelled
by a function fails : Conn -> Bool.
-/

namespace SpacepointWS

/-- A live WebSocket connection, identified by a natural number. -/
abbrev Conn := Nat

/-- The active_connections dictionary of ConnectionManager:
a partial map from user id to the list of connections of that user. -/
abbrev RegSt := Nat → Option (List Conn)

/-- The current connection collection of a user: the dict entry if the
key is present, otherwise the empty list. -/
def lookupList (s : RegSt) (u : Nat) : List Conn :=
  (s u).getD []

/-- Embeds ConnectionManager.connect (the websocket.accept call is
transport-level and not modelled): if user_id is not a key, install the
empty list, then append the websocket to the entry of user_id. -/
def connect (s : RegSt) (ws : Conn) (u : Nat) : RegSt :=
  fun v =>
    if v = u then
      match s u with
      | none => some [ws]
      | some l => some (l ++ [ws])
    else s v

/-- Embeds ConnectionManager.disconnect: if user_id is a key, remove the
first occurrence of the websocket from its list (list.remove semantics;
a no-op when absent), and delete the key when the list becomes empty. -/
def disconnect (s : RegSt) (ws : Conn) (u : Nat) : RegSt :=
  fun v =>
    if v = u then
      match s u with
      | none => none
      | some l =>
        let l2 := l.erase ws
        if l2 = [] then none else some l2
    else s v

/-- Embeds the connection.send_json call inside send_personal_message:
transmission of the (opaque) event on connection c either returns
normally or raises, according to fails c. -/
def sendJson (fails : Conn → Bool) (c : Conn) : Except String Unit :=
  if fails c then Except.error "send_json raised" else Except.ok ()

/-- Observable record of one delivery pass: the connections on which
transmission was attempted (send_json invoked), those on which it
succeeded, and the dead_connections list accumulated by the except
branch. -/
structure DeliveryLog where
  attempted : List Conn
  delivered : List Conn
  dead : List Conn
deriving Repr, DecidableEq

/-- One iteration of the for-loop of send_personal_message: attempt
send_json on connection c; on success continue, on exception log and
append c to dead_connections. -/
def sendStep (fails : Conn → Bool) (acc : DeliveryLog) (c : Conn) : DeliveryLog :=
  match sendJson fails c with
  | Except.ok _ =>
    { acc with attempted := acc.attempted ++ [c], delivered := acc.delivered ++ [c] }
  | Except.error _ =>
    { acc with attempted := acc.attempted ++ [c], dead := acc.dead ++ [c] }

/-- The full for-loop of send_personal_message over the connection
list. -/
def sendLoop (fails : Conn → Bool) (conns : List Conn) : DeliveryLog :=
  conns.foldl (sendStep fails) ⟨[], [], []⟩

/-- The cleanup loop of send_personal_message: for each dead connection,
connections.remove(conn) guarded by try/except ValueError, i.e. erase
the first occurrence, a no-op when absent. -/
def pruneDead (conns dead : List Conn) : List Conn :=
  dead.foldl (fun l c => l.erase c) conns

/-- Result of one send_personal_message call: the registry state after
the call together with the delivery log. -/
structure SendResult where
  state : RegSt
  log : DeliveryLog

/-- Embeds ConnectionManager.send_personal_message: look up the entry of
user_id (return unchanged when absent or empty, matching the falsy
check), attempt send_json on every connection collecting dead ones, then
remove the dead connections from the (aliased) list and pop the key when
the list ends up empty. -/
def send_personal_message (fails : Conn → Bool) (s : RegSt) (u : Nat) : SendResult :=
  match s u with
  | none => ⟨s, ⟨[], [], []⟩⟩
  | some conns =>
    if conns = [] then ⟨s, ⟨[], [], []⟩⟩
    else
      let log := sendLoop fails conns
      let remaining := pruneDead conns log.dead
      ⟨fun v => if v = u then (if remaining = [] then none else some remaining) else s v, log⟩

/-- One iteration of the for-loop of send_personal_message with the
try/except of the source kept explicit in the exception monad: the
send_json call is wrapped in tryCatch whose handler logs the error and
appends the connection to dead_connections. -/
def sendStepE (fails : Conn → Bool) (acc : DeliveryLog) (c : Conn) :
    Except String DeliveryLog :=
  tryCatch
    (do
      let _ ← sendJson fails c
      pure { acc with attempted := acc.attempted ++ [c],
                      delivered := acc.delivered ++ [c] })
    (fun _ =>
      pure { acc with attempted := acc.attempted ++ [c],
                      dead := acc.dead ++ [c] })

/-- Embeds send_personal_message again, this time inside the exception
monad, so that propagation (or not) of transmission errors to the caller
is visible in the result type. -/
def sendPersonalMessageE (fails : Conn → Bool) (s : RegSt) (u : Nat) :
    Except String SendResult :=
  match s u with
  | none => Except.ok ⟨s, ⟨[], [], []⟩⟩
  | some conns =>
    if conns = [] then Except.ok ⟨s, ⟨[], [], []⟩⟩
    else do
      let log ← conns.foldlM (sendStepE fails) (⟨[], [], []⟩ : DeliveryLog)
      let remaining := pruneDead conns log.dead
      Except.ok
        ⟨fun v => if v = u then (if remaining = [] then none else some remaining) else s v, log⟩

/-- Embeds ConnectionManager.send_to_many: invoke send_personal_message
once per user id, in order, threading the registry state and recording
the per-user delivery log. -/
def send_to_many (fails : Conn → Bool) (s : RegSt) (us : List Nat) :
    RegSt × List (Nat × DeliveryLog) :=
  us.foldl
    (fun acc u =>
      let r := send_personal_message fails acc.1 u
      (r.state, acc.2 ++ [(u, r.log)]))
    (s, [])

/-- Total number of successful transmissions of the event to connection
c across a send_to_many call, read off the per-user delivery logs. -/
def totalDeliveredTo (log : List (Nat × DeliveryLog)) (c : Conn) : Nat :=
  log.foldl (fun n e => n + e.2.delivered.count c) 0

/-- Embeds the whitespace test of Python str.strip with no argument,
which removes exactly the characters on which str.isspace is true: the
ASCII controls 0x09 to 0x0D and 0x1C to 0x1F, the space, NEL (0x85),
NBSP (0xA0), Ogham space mark (0x1680), the Unicode space separators
0x2000 to 0x200A, line and paragraph separator (0x2028, 0x2029), narrow
no-break space (0x202F), medium mathematical space (0x205F) and the
ideographic space (0x3000). -/
def pyIsSpace (c : Char) : Bool :=
  [0x09, 0x0A, 0x0B, 0x0C, 0x0D, 0x1C, 0x1D, 0x1E, 0x1F, 0x20,
   0x85, 0xA0, 0x1680,
   0x2000, 0x2001, 0x2002, 0x2003, 0x2004, 0x2005, 0x2006, 0x2007,
   0x2008, 0x2009, 0x200A, 0x2028, 0x2029, 0x202F, 0x205F,
   0x3000].contains c.toNat

/-- Embeds Python str.lower applied per character.  Char.toLower maps
only the ASCII range, while Python applies full Unicode lowercasing;
the two agree on whether the result equals the ASCII literal "ping",
because the only characters whose Python lowercase is the single
character p, i, n or g are the ASCII upper and lower case variants of
those letters (the one multi-character special lowercase mapping,
U+0130, produces i followed by the combining dot U+0307, which can
never yield the four-character ASCII string "ping"). -/
def pyLower (s : String) : String :=
  ⟨s.data.map Char.toLower⟩

/-- Embeds Python str.strip with no argument: remove leading and
trailing characters satisfying str.isspace. -/
def pyStrip (s : String) : String :=
  ⟨((s.data.dropWhile pyIsSpace).reverse.dropWhile pyIsSpace).reverse⟩

/-- Embeds the frame handling of websocket_endpoint: on a text frame
whose stripped, lower-cased content equals "ping" the server sends the
text "pong" back on the same connection; every other frame produces no
reply.  The manager state is untouched by frame handling, so the step
returns it unchanged alongside the outbound replies. -/
def endpointStep (s : RegSt) (frame : String) : RegSt × List String :=
  (s, if pyLower (pyStrip frame) = "ping" then ["pong"] else [])

/-- The registry invariant of the spec: a user id is a key of the
mapping if and only if its connection collection is non-empty. -/
def RegInvariant (s : RegSt) : Prop :=
  ∀ v : Nat, (s v).isSome = true ↔ lookupList s v ≠ []

/-! ### Characterization lemmas for the delivery loop -/

theorem sendLoop_go (fails : Conn → Bool) (conns : List Conn) :
    ∀ acc : DeliveryLog,
      conns.foldl (sendStep fails) acc =
        ⟨acc.attempted ++ conns,
         acc.delivered ++ conns.filter (fun c => !fails c),
         acc.dead ++ conns.filter fails⟩ := by
  induction conns with
  | nil => intro acc; simp
  | cons c t ih =>
    intro acc
    rw [List.foldl_cons, ih]
    cases hfc : fails c <;>
      simp [sendStep, sendJson, hfc, List.filter_cons]

theorem sendLoop_spec (fails : Conn → Bool) (conns : List Conn) :
    sendLoop fails conns =
      ⟨conns, conns.filter (fun c => !fails c), conns.filter fails⟩ := by
  simpa [sendLoop] using sendLoop_go fails conns ⟨[], [], []⟩

theorem foldl_erase_cons (c : Conn) :
    ∀ (ds l : List Conn), (∀ d ∈ ds, d ≠ c) →
      ds.foldl (fun a x => a.erase x) (c :: l) =
        c :: ds.foldl (fun a x => a.erase x) l := by
  intro ds
  induction ds with
  | nil => intro l _; rfl
  | cons d ds ih =>
    intro l h
    have hdc : d ≠ c := h d (List.mem_cons_self d ds)
    rw [List.foldl_cons, List.foldl_cons, List.erase_cons_tail]
    · exact ih (l.erase d) (fun x hx => h x (List.mem_cons_of_mem d hx))
    · simp only [ne_eq, beq_iff_eq]
      exact fun h2 => hdc h2.symm

theorem pruneDead_filter (p : Conn → Bool) :
    ∀ l : List Conn, pruneDead l (l.filter p) = l.filter (fun c => !p c) := by
  intro l
  induction l with
  | nil => rfl
  | cons c t ih =>
    cases hpc : p c with
    | true =>
      show pruneDead (c :: t) ((c :: t).filter p) = (c :: t).filter (fun x => !p x)
      rw [List.filter_cons, if_pos hpc, List.filter_cons]
      unfold pruneDead
      rw [List.foldl_cons, List.erase_cons_head]
      simpa [hpc] using ih
    | false =>
      show pruneDead (c :: t) ((c :: t).filter p) = (c :: t).filter (fun x => !p x)
      rw [List.filter_cons, if_neg (by simp [hpc]), List.filter_cons]
      unfold pruneDead
      have hne : ∀ d ∈ t.filter p, d ≠ c := by
        intro d hd he
        have hpd := List.of_mem_filter hd
        rw [he, hpc] at hpd
        exact Bool.false_ne_true hpd
      rw [foldl_erase_cons c (t.filter p) t hne]
      simpa [hpc] using congrArg (c :: ·) ih

theorem send_none_eq (fails : Conn → Bool) (s : RegSt) (u : Nat)
    (hu : s u = none) :
    send_personal_message fails s u = ⟨s, ⟨[], [], []⟩⟩ := by
  unfold send_personal_message
  rw [hu]

theorem send_empty_eq (fails : Conn → Bool) (s : RegSt) (u : Nat)
    (hu : s u = some []) :
    send_personal_message fails s u = ⟨s, ⟨[], [], []⟩⟩ := by
  simp only [send_personal_message, hu]
  rfl

theorem send_log_some (fails : Conn → Bool) (s : RegSt) (u : Nat)
    (conns : List Conn) (hu : s u = some conns) (hne : conns ≠ []) :
    (send_personal_message fails s u).log =
      ⟨conns, conns.filter (fun c => !fails c), conns.filter fails⟩ := by
  simp only [send_personal_message, hu]
  rw [if_neg hne]
  simp [sendLoop_spec]

theorem send_lookup_some (fails : Conn → Bool) (s : RegSt) (u : Nat)
    (conns : List Conn) (hu : s u = some conns) (hne : conns ≠ []) :
    lookupList (send_personal_message fails s u).state u =
      conns.filter (fun c => !fails c) := by
  simp only [send_personal_message, hu]
  rw [if_neg hne]
  simp only [sendLoop_spec, pruneDead_filter]
  by_cases h : conns.filter (fun c => !fails c) = [] <;>
    simp [lookupList, h]

theorem send_state_ne (fails : Conn → Bool) (s : RegSt) (u v : Nat)
    (hvu : v ≠ u) :
    (send_personal_message fails s u).state v = s v := by
  cases hsu : s u with
  | none => simp only [send_personal_message, hsu]
  | some conns =>
    by_cases hc : conns = []
    · simp only [send_personal_message, hsu]
      rw [if_pos hc]
    · simp only [send_personal_message, hsu]
      rw [if_neg hc]
      show (if v = u then _ else s v) = s v
      rw [if_neg hvu]

theorem send_state_some_eq (fails : Conn → Bool) (s : RegSt) (u : Nat)
    (conns : List Conn) (hu : s u = some conns) (hne : conns ≠ []) (v : Nat) :
    (send_personal_message fails s u).state v =
      if v = u then
        (if conns.filter (fun c => !fails c) = [] then none
         else some (conns.filter (fun c => !fails c)))
      else s v := by
  simp only [send_personal_message, hu]
  rw [if_neg hne]
  simp only [sendLoop_spec, pruneDead_filter]

/-! ### Characterization lemmas for connect and disconnect -/

theorem connect_apply_ne (s : RegSt) (ws : Conn) (u v : Nat) (h : v ≠ u) :
    connect s ws u v = s v := by
  simp [connect, h]

theorem disconnect_apply_ne (s : RegSt) (ws : Conn) (u v : Nat) (h : v ≠ u) :
    disconnect s ws u v = s v := by
  simp [disconnect, h]

theorem connect_lookup_self (s : RegSt) (ws : Conn) (u : Nat) :
    lookupList (connect s ws u) u = lookupList s u ++ [ws] := by
  cases hsu : s u <;> simp [connect, lookupList, hsu]

theorem disconnect_lookup_self (s : RegSt) (ws : Conn) (u : Nat) :
    lookupList (disconnect s ws u) u = (lookupList s u).erase ws := by
  cases hsu : s u with
  | none => simp [disconnect, lookupList, hsu]
  | some l =>
    by_cases h : l.erase ws = [] <;> simp [disconnect, lookupList, hsu, h]

/-! ### The registry invariant, restated pointwise -/

theorem regInvariant_iff (s : RegSt) :
    RegInvariant s ↔ ∀ v, s v ≠ some [] := by
  unfold RegInvariant lookupList
  constructor
  · intro h v hv
    have h2 := (h v).mp
    rw [hv] at h2
    exact h2 rfl rfl
  · intro h v
    cases hsv : s v with
    | none => simp
    | some l =>
      have hl : l ≠ [] := fun he => h v (by rw [hsv, he])
      simp [hl]

/-! ### Agreement of the exception-monad embedding with the total one -/

theorem sendStepE_eq (fails : Conn → Bool) (acc : DeliveryLog) (c : Conn) :
    sendStepE fails acc c = Except.ok (sendStep fails acc c) := by
  cases hfc : fails c <;>
    simp only [sendStepE, sendStep, sendJson, hfc] <;> rfl

theorem foldlM_sendStepE (fails : Conn → Bool) (l : List Conn) :
    ∀ acc : DeliveryLog,
      l.foldlM (sendStepE fails) acc =
        Except.ok (l.foldl (sendStep fails) acc) := by
  induction l with
  | nil => intro acc; rfl
  | cons c t ih =>
    intro acc
    rw [List.foldlM_cons, sendStepE_eq]
    simpa using ih (sendStep fails acc c)

theorem sendPersonalMessageE_eq (fails : Conn → Bool) (s : RegSt) (u : Nat) :
    sendPersonalMessageE fails s u =
      Except.ok (send_personal_message fails s u) := by
  cases hsu : s u with
  | none => simp only [sendPersonalMessageE, send_personal_message, hsu]
  | some conns =>
    by_cases hc : conns = []
    · simp only [sendPersonalMessageE, send_personal_message, hsu]
      rw [if_pos hc, if_pos hc]
    · simp only [sendPersonalMessageE, send_personal_message, hsu]
      rw [if_neg hc, if_neg hc]
      rw [show conns.foldlM (sendStepE fails) (⟨[], [], []⟩ : DeliveryLog) =
            Except.ok (conns.foldl (sendStep fails) ⟨[], [], []⟩) from
          foldlM_sendStepE fails conns ⟨[], [], []⟩]
      rfl

theorem send_to_many_fst_go (fails : Conn → Bool) (us : List Nat) :
    ∀ p : RegSt × List (Nat × DeliveryLog),
      (us.foldl (fun acc u =>
        let r := send_personal_message fails acc.1 u
        (r.state, acc.2 ++ [(u, r.log)])) p).2.map Prod.fst
        = p.2.map Prod.fst ++ us := by
  induction us with
  | nil => intro p; simp
  | cons u t ih =>
    intro p
    rw [List.foldl_cons, ih]
    simp

/-! ### Producer-side event payloads

The routers reports.py, package_requests.py and receipts.py build the
dict payloads passed to the delivery layer.  We model JSON-like values
and embed each payload construction, parameterized by the database row
values it reads. -/

inductive JVal where
  | jstr (v : String)
  | jint (v : Int)
  | jnull
  | jarr (elems : List JVal)
  | jobj (fields : List (String × JVal))

/-- Embeds the Python pattern of putting either a value or None in a
dict slot (e.g. r.get("cubesat_id"), out.sent_date.isoformat() if
out.sent_date else None). -/
def optStr : Option String → JVal
  | some v => JVal.jstr v
  | none => JVal.jnull

/-- Same as optStr for integer-valued slots. -/
def optInt : Option Int → JVal
  | some v => JVal.jint v
  | none => JVal.jnull

/-- The value of the type discriminator field of an event payload. -/
def typeField : JVal → Option String
  | JVal.jobj fields =>
    match fields.lookup "type" with
    | some (JVal.jstr t) => some t
    | _ => none
  | _ => none

/-- Embeds the WS payload built by create_report in reports.py. -/
def report_created_payload (reportId instructorId : Int) (title status : String)
    (cubesatId : Option Int) (imageUrl : Option String) (createdAt updatedAt : String)
    (msgId msgReportId : Int) (senderRole : String) (senderUserId : Int)
    (msgText msgCreatedAt : String) : JVal :=
  JVal.jobj
    [("type", JVal.jstr "report_created"),
     ("report", JVal.jobj
       [("id", JVal.jint reportId),
        ("instructor_id", JVal.jint instructorId),
        ("title", JVal.jstr title),
        ("status", JVal.jstr status),
        ("cubesat_id", optInt cubesatId),
        ("image_url", optStr imageUrl),
        ("created_at", JVal.jstr createdAt),
        ("updated_at", JVal.jstr updatedAt)]),
     ("message", JVal.jobj
       [("id", JVal.jint msgId),
        ("report_id", JVal.jint msgReportId),
        ("sender_role", JVal.jstr senderRole),
        ("sender_user_id", JVal.jint senderUserId),
        ("message", JVal.jstr msgText),
        ("created_at", JVal.jstr msgCreatedAt)])]

/-- Embeds the WS payload built by the report-message route in
reports.py. -/
def report_message_payload (reportId : Int) (status : String) (msgId : Int)
    (senderRole : String) (senderUserId : Int) (msgText createdAt : String) : JVal :=
  JVal.jobj
    [("type", JVal.jstr "report_message"),
     ("report_id", JVal.jint reportId),
     ("status", JVal.jstr status),
     ("message", JVal.jobj
       [("id", JVal.jint msgId),
        ("sender_role", JVal.jstr senderRole),
        ("sender_user_id", JVal.jint senderUserId),
        ("message", JVal.jstr msgText),
        ("created_at", JVal.jstr createdAt)])]

/-- Embeds the WS payload built by create_package_request in
package_requests.py. -/
def package_request_created_payload (reqId requestedBy : Int)
    (requestedByName : Option String) (location : String) (items : JVal)
    (totalItems : Int) (status createdAt : String) : JVal :=
  JVal.jobj
    [("type", JVal.jstr "package_request_created"),
     ("request", JVal.jobj
       [("id", JVal.jint reqId),
        ("requested_by", JVal.jint requestedBy),
        ("requested_by_name", optStr requestedByName),
        ("location", JVal.jstr location),
        ("items", items),
        ("total_items", JVal.jint totalItems),
        ("status", JVal.jstr status),
        ("created_at", JVal.jstr createdAt)])]

/-- Embeds the WS payload built by the status-update route in
package_requests.py. -/
def package_request_status_payload (requestId : Int) (status : String)
    (sentDate deliveredDate : Option String) : JVal :=
  JVal.jobj
    [("type", JVal.jstr "package_request_status"),
     ("request_id", JVal.jint requestId),
     ("status", JVal.jstr status),
     ("sent_date", optStr sentDate),
     ("delivered_date", optStr deliveredDate)]

/-- Embeds the WS payload built by create_receipt in receipts.py. -/
def new_receipt_payload (receiptId : Int) (cubesatName createdAt status : String)
    (notifTitle notifMessage : String) : JVal :=
  JVal.jobj
    [("type", JVal.jstr "new_receipt"),
     ("receipt", JVal.jobj
       [("id", JVal.jint receiptId),
        ("cubesat_name", JVal.jstr cubesatName),
        ("created_at", JVal.jstr createdAt),
        ("status", JVal.jstr status)]),
     ("notification", JVal.jobj
       [("title", JVal.jstr notifTitle),
        ("message", JVal.jstr notifMessage)])]

/-- The event type variants named by the spec. -/
def specEventTypes : List String :=
  ["new-ticket-created", "ticket-status-changed", "package-request-created",
   "package-request-status-changed", "report-created", "report-message-added"]

/-- The event type variants actually constructed by the code. -/
def codeEventTypes : List String :=
  ["report_created", "report_message", "package_request_created",
   "package_request_status", "new_receipt"]

/-! ### Claim theorems -/

/-- C1: when user u has registered connections conns and transmission
fails on an arbitrary subset of them, send_personal_message still
attempts transmission on every one of the connections (no
short-circuiting), and afterwards every failed connection is absent from
the collection of u while every connection whose transmission succeeded
remains registered. -/
theorem send_attempts_all_and_prunes_failed (fails : Conn → Bool)
    (s : RegSt) (u : Nat) (conns : List Conn)
    (hu : s u = some conns) (hne : conns ≠ []) :
    (send_personal_message fails s u).log.attempted = conns ∧
    (∀ c ∈ conns, fails c = true →
      c ∉ lookupList (send_personal_message fails s u).state u) ∧
    (∀ c ∈ conns, fails c = false →
      c ∈ lookupList (send_personal_message fails s u).state u) := by
  refine ⟨?_, ?_, ?_⟩
  · rw [send_log_some fails s u conns hu hne]
  · intro c hc hf
    rw [send_lookup_some fails s u conns hu hne]
    intro hmem
    have hkeep := List.of_mem_filter hmem
    rw [hf] at hkeep
    exact Bool.false_ne_true hkeep
  · intro c hc hf
    rw [send_lookup_some fails s u conns hu hne]
    refine List.mem_filter.mpr ⟨hc, ?_⟩
    rw [hf]
    rfl

theorem send_attempts_all_and_prunes_failed_witness :
    ((fun v => if v = 1 then some [10, 11, 12] else none : RegSt) 1
        = some [10, 11, 12]) ∧
    (([10, 11, 12] : List Conn) ≠ []) ∧
    ((send_personal_message (fun c => c == 11)
        (fun v => if v = 1 then some [10, 11, 12] else none) 1).log.attempted
        = [10, 11, 12] ∧
     (∀ c ∈ ([10, 11, 12] : List Conn), (fun c => c == 11) c = true →
       c ∉ lookupList (send_personal_message (fun c => c == 11)
         (fun v => if v = 1 then some [10, 11, 12] else none) 1).state 1) ∧
     (∀ c ∈ ([10, 11, 12] : List Conn), (fun c => c == 11) c = false →
       c ∈ lookupList (send_personal_message (fun c => c == 11)
         (fun v => if v = 1 then some [10, 11, 12] else none) 1).state 1)) :=
  ⟨rfl, by decide,
    send_attempts_all_and_prunes_failed (fun c => c == 11)
      (fun v => if v = 1 then some [10, 11, 12] else none) 1 [10, 11, 12]
      rfl (by decide)⟩

/-- C2: the registry invariant — a user id is a key of the mapping if
and only if its connection collection is non-empty — is preserved by
connect, disconnect and send_personal_message. -/
theorem registry_invariant_preserved (fails : Conn → Bool) (s : RegSt)
    (ws : Conn) (u : Nat) (h : RegInvariant s) :
    RegInvariant (connect s ws u) ∧
    RegInvariant (disconnect s ws u) ∧
    RegInvariant ((send_personal_message fails s u).state) := by
  rw [regInvariant_iff] at h
  refine ⟨(regInvariant_iff _).mpr ?_, (regInvariant_iff _).mpr ?_,
          (regInvariant_iff _).mpr ?_⟩
  · intro v
    by_cases hv : v = u
    · subst hv
      cases hsu : s v <;> simp [connect, hsu]
    · rw [connect_apply_ne s ws u v hv]
      exact h v
  · intro v
    by_cases hv : v = u
    · subst hv
      cases hsu : s v with
      | none => simp [disconnect, hsu]
      | some l =>
        by_cases he : l.erase ws = [] <;> simp [disconnect, hsu, he]
    · rw [disconnect_apply_ne s ws u v hv]
      exact h v
  · intro v
    by_cases hv : v = u
    · subst hv
      cases hsu : s v with
      | none =>
        rw [send_none_eq fails s v hsu]
        simp [hsu]
      | some conns =>
        by_cases hc : conns = []
        · subst hc
          exact absurd hsu (h v)
        · rw [send_state_some_eq fails s v conns hsu hc v]
          rw [if_pos rfl]
          by_cases hrem : conns.filter (fun c => !fails c) = [] <;> simp [hrem]
    · rw [send_state_ne fails s u v hv]
      exact h v

theorem registry_invariant_preserved_witness :
    RegInvariant (fun v => if v = 1 then some [5] else none) ∧
    (RegInvariant (connect (fun v => if v = 1 then some [5] else none) 9 2) ∧
     RegInvariant (disconnect (fun v => if v = 1 then some [5] else none) 9 2) ∧
     RegInvariant ((send_personal_message (fun _ => true)
        (fun v => if v = 1 then some [5] else none) 2).state)) := by
  have h : RegInvariant (fun v => if v = 1 then some [5] else none) := by
    rw [regInvariant_iff]
    intro v
    by_cases hv : v = 1 <;> simp [hv]
  exact ⟨h, registry_invariant_preserved (fun _ => true) _ 9 2 h⟩

/-- C3 counterexample: with connection 7 registered twice for user 0, a
single disconnect removes only the first occurrence, so a lookup for
user 0 still includes connection 7 — refuting the unregister half of
the claim as stated over every registry state. -/
theorem unregister_lookup_counterexample :
    7 ∈ lookupList
      (disconnect (fun v => if v = 0 then some [7, 7] else none) 7 0) 0 := by
  decide

/-- C3 (amended): after connect the lookup for u includes the
connection; after disconnect it does not, provided the connection
occurred at most once in the collection of u (disconnect removes a
single occurrence). -/
theorem register_unregister_lookup (s : RegSt) (ws : Conn) (u : Nat)
    (hcount : (lookupList s u).count ws ≤ 1) :
    ws ∈ lookupList (connect s ws u) u ∧
    ws ∉ lookupList (disconnect s ws u) u := by
  constructor
  · rw [connect_lookup_self]
    simp
  · rw [disconnect_lookup_self]
    intro hmem
    have hpos := List.count_pos_iff.mpr hmem
    rw [List.count_erase_self] at hpos
    omega

theorem register_unregister_lookup_witness :
    ((lookupList (fun v => if v = 0 then some [3] else none : RegSt) 0).count 3 ≤ 1) ∧
    (3 ∈ lookupList (connect (fun v => if v = 0 then some [3] else none) 3 0) 0 ∧
     3 ∉ lookupList (disconnect (fun v => if v = 0 then some [3] else none) 3 0) 0) :=
  ⟨by decide,
    register_unregister_lookup (fun v => if v = 0 then some [3] else none) 3 0
      (by decide)⟩

/-- C4: send_personal_message never propagates a transmission error to
its caller: for every failure pattern — including the one where every
transmission raises — the exception-monad embedding returns Except.ok,
carrying no error value to the Producer. -/
theorem deliver_never_propagates_error (fails : Conn → Bool) (s : RegSt)
    (u : Nat) :
    ∃ r : SendResult, sendPersonalMessageE fails s u = Except.ok r :=
  ⟨send_personal_message fails s u, sendPersonalMessageE_eq fails s u⟩

/-- C5: when u has no registry entry, send_personal_message returns
without error, leaves the state unchanged and attempts no
transmission. -/
theorem deliver_zero_connections_noop (fails : Conn → Bool) (s : RegSt)
    (u : Nat) (hu : s u = none) :
    send_personal_message fails s u = ⟨s, ⟨[], [], []⟩⟩ ∧
    sendPersonalMessageE fails s u = Except.ok ⟨s, ⟨[], [], []⟩⟩ := by
  have h1 := send_none_eq fails s u hu
  refine ⟨h1, ?_⟩
  rw [sendPersonalMessageE_eq, h1]

theorem deliver_zero_connections_noop_witness :
    ((fun _ => none : RegSt) 5 = none) ∧
    (send_personal_message (fun _ => true) (fun _ => none) 5
        = ⟨(fun _ => none), ⟨[], [], []⟩⟩ ∧
     sendPersonalMessageE (fun _ => true) (fun _ => none) 5
        = Except.ok ⟨(fun _ => none), ⟨[], [], []⟩⟩) :=
  ⟨rfl, deliver_zero_connections_noop (fun _ => true) (fun _ => none) 5 rfl⟩

/-- C6: send_to_many invokes send_personal_message exactly once per
identity in the given list, and delivery is independent: when u1 has no
connections and u2 has the single live connection c, the call for the
pair delivers the event to c exactly once. -/
theorem send_to_many_once_per_identity (fails : Conn → Bool) (s : RegSt)
    (us : List Nat) :
    ((send_to_many fails s us).2.map Prod.fst = us) ∧
    (∀ u1 u2 c, s u1 = none → s u2 = some [c] → fails c = false →
      totalDeliveredTo (send_to_many fails s [u1, u2]).2 c = 1) := by
  constructor
  · simpa [send_to_many] using send_to_many_fst_go fails us (s, [])
  · intro u1 u2 c h1 h2 hf
    have e1 := send_none_eq fails s u1 h1
    have e2 := send_log_some fails s u2 [c] h2 (by simp)
    simp [send_to_many, e1, e2, totalDeliveredTo, hf]

theorem send_to_many_once_per_identity_witness :
    ((send_to_many (fun _ => false)
        (fun v => if v = 2 then some [8] else none) [1, 2]).2.map Prod.fst
      = [1, 2]) ∧
    ((fun v => if v = 2 then some [8] else none : RegSt) 1 = none) ∧
    ((fun v => if v = 2 then some [8] else none : RegSt) 2 = some [8]) ∧
    (totalDeliveredTo (send_to_many (fun _ => false)
        (fun v => if v = 2 then some [8] else none) [1, 2]).2 8 = 1) :=
  ⟨(send_to_many_once_per_identity (fun _ => false)
      (fun v => if v = 2 then some [8] else none) [1, 2]).1,
   rfl, rfl,
   (send_to_many_once_per_identity (fun _ => false)
      (fun v => if v = 2 then some [8] else none) [1, 2]).2 1 2 8 rfl rfl rfl⟩

/-- C7: the endpoint loop answers an inbound text frame whose stripped,
lower-cased content equals the literal ping with the single reply pong
on the same connection, and answers every other frame with no reply;
frame handling never changes the registry state. -/
theorem endpoint_ping_pong (s : RegSt) (frame : String) :
    (endpointStep s frame).1 = s ∧
    (pyLower (pyStrip frame) = "ping" → (endpointStep s frame).2 = ["pong"]) ∧
    (pyLower (pyStrip frame) ≠ "ping" → (endpointStep s frame).2 = []) := by
  refine ⟨rfl, ?_, ?_⟩ <;> intro h <;> simp [endpointStep, h]

theorem endpoint_ping_pong_witness :
    (pyLower (pyStrip "  PiNg  ") = "ping") ∧
    ((endpointStep (fun _ => none) "  PiNg  ").2 = ["pong"]) ∧
    (pyLower (pyStrip "\x0bPING\x0c\xa0") = "ping") ∧
    ((endpointStep (fun _ => none) "\x0bPING\x0c\xa0").2 = ["pong"]) ∧
    (pyLower (pyStrip "hello") ≠ "ping") ∧
    ((endpointStep (fun _ => none) "hello").2 = []) :=
  ⟨by decide,
   (endpoint_ping_pong (fun _ => none) "  PiNg  ").2.1 (by decide),
   by decide,
   (endpoint_ping_pong (fun _ => none) "\x0bPING\x0c\xa0").2.1 (by decide),
   by decide,
   (endpoint_ping_pong (fun _ => none) "hello").2.2 (by decide)⟩

/-- C8 counterexample: the payload built by create_receipt carries the
type value new_receipt, which is not among the variants listed by the
spec, so the claim that every payload uses one of the listed variants
fails on the code. -/
theorem payload_type_counterexample :
    typeField (new_receipt_payload 1 "CS-A" "2024-01-01T00:00:00" "pending"
        "Equipment Receipt Approval Required" "msg")
      = some "new_receipt" ∧
    "new_receipt" ∉ specEventTypes := by
  constructor
  · rfl
  · decide

/-- C8 (amended): every event payload a Producer passes to the delivery
layer is a structured record with a type discriminator field, and the
value of that field is one of the variants the code constructs:
report_created, report_message, package_request_created,
package_request_status, new_receipt. -/
theorem producer_payload_types :
    (∀ a b c d e f g h i j k l m n, ∃ t,
      typeField (report_created_payload a b c d e f g h i j k l m n) = some t ∧
      t ∈ codeEventTypes) ∧
    (∀ a b c d e f g, ∃ t,
      typeField (report_message_payload a b c d e f g) = some t ∧
      t ∈ codeEventTypes) ∧
    (∀ a b c d e f g h, ∃ t,
      typeField (package_request_created_payload a b c d e f g h) = some t ∧
      t ∈ codeEventTypes) ∧
    (∀ a b c d, ∃ t,
      typeField (package_request_status_payload a b c d) = some t ∧
      t ∈ codeEventTypes) ∧
    (∀ a b c d e f, ∃ t,
      typeField (new_receipt_payload a b c d e f) = some t ∧
      t ∈ codeEventTypes) := by
  refine ⟨?_, ?_, ?_, ?_, ?_⟩ <;> intros <;>
    exact ⟨_, rfl, by decide⟩

/-- C9: each of connect, disconnect and send_personal_message targeted
at user u leaves the registry entry of every other user v unchanged,
including its presence or absence as a key. -/
theorem operations_frame_other_identities (fails : Conn → Bool) (s : RegSt)
    (ws : Conn) (u v : Nat) (hvu : v ≠ u) :
    connect s ws u v = s v ∧
    disconnect s ws u v = s v ∧
    (send_personal_message fails s u).state v = s v :=
  ⟨connect_apply_ne s ws u v hvu, disconnect_apply_ne s ws u v hvu,
   send_state_ne fails s u v hvu⟩

theorem operations_frame_other_identities_witness :
    ((3 : Nat) ≠ 1) ∧
    (connect (fun v => if v = 3 then some [6] else none) 9 1 3
        = (fun v => if v = 3 then some [6] else none : RegSt) 3 ∧
     disconnect (fun v => if v = 3 then some [6] else none) 9 1 3
        = (fun v => if v = 3 then some [6] else none : RegSt) 3 ∧
     (send_personal_message (fun _ => true)
        (fun v => if v = 3 then some [6] else none) 1).state 3
        = (fun v => if v = 3 then some [6] else none : RegSt) 3) :=
  ⟨by decide,
   operations_frame_other_identities (fun _ => true)
     (fun v => if v = 3 then some [6] else none) 9 1 3 (by decide)⟩

/-- C10: registration has multiset semantics — connect appends the
connection unconditionally, growing the collection of u by exactly one
even when already present, and disconnect removes exactly one
occurrence, so with the connection registered twice a single disconnect
leaves it still present. -/
theorem register_multiset_semantics (s : RegSt) (ws : Conn) (u : Nat) :
    lookupList (connect s ws u) u = lookupList s u ++ [ws] ∧
    (lookupList (connect s ws u) u).length = (lookupList s u).length + 1 ∧
    lookupList (disconnect s ws u) u = (lookupList s u).erase ws ∧
    (s u = some [ws, ws] → ws ∈ lookupList (disconnect s ws u) u) := by
  refine ⟨connect_lookup_self s ws u, ?_, disconnect_lookup_self s ws u, ?_⟩
  · rw [connect_lookup_self]
    simp
  · intro hdup
    rw [disconnect_lookup_self]
    unfold lookupList
    rw [hdup]
    simp

theorem register_multiset_semantics_witness :
    ((fun v => if v = 0 then some [4, 4] else none : RegSt) 0 = some [4, 4]) ∧
    (4 ∈ lookupList
      (disconnect (fun v => if v = 0 then some [4, 4] else none) 4 0) 0) :=
  ⟨rfl,
   (register_multiset_semantics (fun v => if v = 0 then some [4, 4] else none)
      4 0).2.2.2 rfl⟩

end SpacepointWS
